import Mathlib

/-!
Verification of the Syncing File core of the backing-image-manager
repository: the sync-service registry (`pkg/sync/service.go`), the
HTTP download handler and the idle-timeout copy pump
(the handler source file, present as `src/unnamed/part_002`).

Go maps are embedded as association lists with distinct keys; Go's
`fmt.Errorf` failures become `Except String`; the HTTP handlers become
functions from parsed request parameters and the registry state to a
status code and a new state.
-/

namespace BackingImage

/-- Sector size used for the direct-IO alignment check
(`types.DefaultSectorSize`; the spec fixes it to 512 bytes). -/
def DefaultSectorSize : Int := 512

/-- States of a Syncing File (`types.State*`). Only `pending` and
`ready` matter for the service-level claims: `NewSyncingFile`
constructs files in `pending`, and `DownloadToDst` refuses to stream a
file whose state is not `ready`. -/
inductive FileState where
  | pending
  | starting
  | inProgress
  | ready
  | failed
  | unknown
deriving DecidableEq, Repr

/-- The per-file entity held by the registry (the fields of
`SyncingFile` that the service-level code reads). -/
structure SyncingFile where
  filePath : String
  uuid : String
  diskUUID : String
  expectedChecksum : String
  size : Int
  state : FileState
deriving DecidableEq, Repr

/-- `NewSyncingFile`: constructs the entity in the `pending` state,
recording the registration parameters. -/
def NewSyncingFile (filePath uuid diskUUID expectedChecksum : String)
    (size : Int) : SyncingFile :=
  { filePath := filePath, uuid := uuid, diskUUID := diskUUID,
    expectedChecksum := expectedChecksum, size := size,
    state := FileState.pending }

/-- A Go `map[string]*SyncingFile`, embedded as an association list. -/
abbrev FileMap := List (String × SyncingFile)

/-- Go map lookup `m[k]` (returning the zero value `nil` as `none`). -/
def alookup (k : String) : FileMap → Option SyncingFile
  | [] => none
  | (k', v) :: rest => if k = k' then some v else alookup k rest

/-- Go map deletion `delete(m, k)`. -/
def aerase (k : String) (m : FileMap) : FileMap :=
  m.filter (fun e => decide (e.1 ≠ k))

/-- The sync `Service` registry: the pair of index maps guarded by the
service lock (`filePathMap`, `fileUUIDMap`). -/
structure ServiceState where
  filePathMap : FileMap
  fileUUIDMap : FileMap
deriving DecidableEq, Repr

/-- The registry right after `InitService`: both maps empty. -/
def ServiceState.init : ServiceState :=
  { filePathMap := [], fileUUIDMap := [] }

/-- `Service.checkAndInitSyncFile`: under the write lock, fail if
`filePath` or `uuid` is already indexed, otherwise create the entity
in `pending` and insert it in both maps. -/
def checkAndInitSyncFile (s : ServiceState)
    (filePath uuid diskUUID expectedChecksum : String) (size : Int) :
    Except String (ServiceState × SyncingFile) :=
  if (alookup filePath s.filePathMap).isSome then
    Except.error ("file " ++ filePath ++ " already exists")
  else if (alookup uuid s.fileUUIDMap).isSome then
    Except.error ("file " ++ filePath ++ " with uuid " ++ uuid ++ " already exists")
  else
    let sf := NewSyncingFile filePath uuid diskUUID expectedChecksum size
    Except.ok ({ filePathMap := (filePath, sf) :: s.filePathMap,
                 fileUUIDMap := (uuid, sf) :: s.fileUUIDMap }, sf)

/-- `Service.cleanup`: under the write lock, drop the `filePath` entry
and, when the file was registered, the matching `uuid` entry.
`deleteFile` only controls the later disk unlink (`sf.Delete()`), not
the registry mutation. -/
def cleanup (s : ServiceState) (filePath : String) (_deleteFile : Bool) :
    ServiceState :=
  match alookup filePath s.filePathMap with
  | none => { s with filePathMap := aerase filePath s.filePathMap }
  | some f => { filePathMap := aerase filePath s.filePathMap,
                fileUUIDMap := aerase f.uuid s.fileUUIDMap }

/-- The registry-mutating operations reachable over HTTP: `register`
(via any of the registration endpoints, all of which funnel into
`checkAndInitSyncFile`), `Delete` and `Forget` (both funnel into
`cleanup`). -/
inductive Op where
  | register (filePath uuid diskUUID expectedChecksum : String) (size : Int)
  | delete (filePath : String)
  | forget (filePath : String)
deriving DecidableEq, Repr

/-- Effect of one operation on the registry; a failed registration
leaves the state untouched (the handler only reports the error). -/
def applyOp (s : ServiceState) : Op → ServiceState
  | Op.register p u d c z =>
    match checkAndInitSyncFile s p u d c z with
    | Except.ok (s', _) => s'
    | Except.error _ => s
  | Op.delete p => cleanup s p true
  | Op.forget p => cleanup s p false

/-- Registry state after a finite sequence of operations from the
freshly initialized service. -/
def applyOps (ops : List Op) : ServiceState :=
  ops.foldl applyOp ServiceState.init

/-- Sample operation sequence used to exercise the registry claims on
concrete inputs: two registrations followed by a forget. -/
def sampleOps : List Op :=
  [Op.register "/data/a-u1/backing" "u1" "disk1" "" 4096,
   Op.register "/data/b-u2/backing" "u2" "disk1" "" 512,
   Op.forget "/data/b-u2/backing"]

/-- The surviving file of `sampleOps`. -/
def sampleFile : SyncingFile :=
  NewSyncingFile "/data/a-u1/backing" "u1" "disk1" "" 4096

/-! ### The idle-timeout copy pump -/

/-- `DownloadBufferSize`: the 4 KiB copy buffer (`1 << 12`). -/
def DownloadBufferSize : Nat := 4096

/-- Read errors as seen by the copy loop: Go's `io.EOF` sentinel or
any other read error. -/
inductive ReadErr where
  | eof
  | other (msg : String)
deriving DecidableEq, Repr

/-- One result of `src.Read(buf)`: the bytes placed into the buffer
(`buf[0:nr]`, so at most `DownloadBufferSize` of them) and the error
returned alongside them. -/
structure ReadStep where
  chunk : List Nat
  rErr : Option ReadErr
deriving DecidableEq, Repr

/-- A destination operation issued by the copy loop: `dst.Write` of
the buffer contents, or `dst.Seek` forward from the current offset. -/
inductive CopyEvent where
  | write (data : List Nat)
  | seek (n : Nat)
deriving DecidableEq, Repr

/-- `bytes.Equal(buf[0:nr], zeroByteArray[0:nr])`: every byte read is
zero. -/
def isZeroChunk (chunk : List Nat) : Bool := chunk.all (fun b => b == 0)

/-- The copy loop of `IdleTimeoutCopy`, with the reader abstracted as
the sequence of its `Read` results and the destination as the list of
write/seek operations it receives. The timer goroutine and the
context-cancellation branch are timing behaviour outside this
data-path model, and the destination is modelled as error-free, so
`dst.Write(buf[0:nr])` reports `nw = nr`. Returns the operations
issued to `dst`, the `copied` counter and the final error. -/
def idleTimeoutCopyLoop (writeZero : Bool) :
    List ReadStep → List CopyEvent × Nat × Option String
  | [] => ([], 0, none)
  | step :: rest =>
    let evs : List CopyEvent × Nat :=
      if 0 < step.chunk.length then
        if !writeZero && isZeroChunk step.chunk then
          ([CopyEvent.seek step.chunk.length], step.chunk.length)
        else
          ([CopyEvent.write step.chunk], step.chunk.length)
      else ([], 0)
    match step.rErr with
    | some ReadErr.eof => (evs.1, evs.2, none)
    | some (ReadErr.other msg) => (evs.1, evs.2, some msg)
    | none =>
      let r := idleTimeoutCopyLoop writeZero rest
      (evs.1 ++ r.1, evs.2 + r.2.1, r.2.2)

/-- The prefix of the read sequence the loop actually consumes: it
stops with the first read that also returns an error (`io.EOF`
included). -/
def processedSteps : List ReadStep → List ReadStep
  | [] => []
  | step :: rest =>
    match step.rErr with
    | none => step :: processedSteps rest
    | some _ => [step]

/-- The destination operation one read gives rise to, as the spec
describes it: in sparse mode an all-zero buffer is seeked over by its
length, anything else read is written in full, an empty read does
nothing. -/
def specStepEvents (writeZero : Bool) (step : ReadStep) : List CopyEvent :=
  if 0 < step.chunk.length then
    if !writeZero && isZeroChunk step.chunk then
      [CopyEvent.seek step.chunk.length]
    else [CopyEvent.write step.chunk]
  else []

/-- Total number of bytes a list of destination operations writes. -/
def writtenBytes (evs : List CopyEvent) : Nat :=
  (evs.map (fun e => match e with
    | CopyEvent.write data => data.length
    | CopyEvent.seek _ => 0)).sum

/-- Total number of bytes delivered by a read sequence. -/
def totalReadBytes (steps : List ReadStep) : Nat :=
  (steps.map (fun s => s.chunk.length)).sum

/-- Bytes delivered by the reads whose buffers are not entirely
zero. -/
def nonZeroReadBytes (steps : List ReadStep) : Nat :=
  ((steps.filter (fun s => !isZeroChunk s.chunk)).map
    (fun s => s.chunk.length)).sum

/-- Sample read sequence: a full all-zero buffer, a non-zero buffer,
then a clean EOF. -/
def sampleSteps : List ReadStep :=
  [{ chunk := List.replicate DownloadBufferSize 0, rErr := none },
   { chunk := [255, 0, 255], rErr := none },
   { chunk := [], rErr := some ReadErr.eof }]

/-! ### The HTTP download handler -/

/-- The destination file of a download, as the handler mutates it:
initially missing or holding stale data; `os.Create` replaces it with
an empty file to which the copy pump's operations are then applied;
`Truncate` records the final length. The handler never removes it. -/
inductive DestFile where
  | absent
  | existing (data : List Nat)
  | created (events : List CopyEvent) (truncatedTo : Option Nat)
deriving DecidableEq, Repr

/-- Environment of one `HTTPHandler.DownloadFromURL` call: the URL,
the outcome of each fallible external step, and the response body as
the copy pump's read sequence. -/
structure DownloadEnv where
  url : String
  newRequestErr : Option String
  clientDoErr : Option String
  statusCode : Nat
  status : String
  createErr : Option String
  body : List ReadStep
  truncateErr : Option String
deriving DecidableEq, Repr

/-- Result of one `HTTPHandler.DownloadFromURL` call: the returned
`(written, err)` pair and the destination file it leaves behind. -/
structure DownloadResult where
  written : Int
  err : Option String
  dest : DestFile
deriving DecidableEq, Repr

/-- `HTTPHandler.DownloadFromURL`: build the GET request, execute it,
require status 200, `os.Create` the destination (truncating any
existing file), pump the response body through `IdleTimeoutCopy` with
`writeZero=false`, then `Truncate` the destination to the bytes
actually copied. Every failure path returns `written = 0` together
with the error; no path removes the destination file. -/
def HTTPHandler.DownloadFromURL (env : DownloadEnv) (dest0 : DestFile) :
    DownloadResult :=
  match env.newRequestErr with
  | some e => { written := 0, err := some e, dest := dest0 }
  | none =>
  match env.clientDoErr with
  | some e => { written := 0, err := some e, dest := dest0 }
  | none =>
  if env.statusCode ≠ 200 then
    { written := 0,
      err := some ("expected status code 200 from " ++ env.url ++
        ", got " ++ env.status),
      dest := dest0 }
  else
  match env.createErr with
  | some e => { written := 0, err := some e, dest := dest0 }
  | none =>
    let r := idleTimeoutCopyLoop false env.body
    match r.2.2 with
    | some e =>
      { written := 0, err := some e, dest := DestFile.created r.1 none }
    | none =>
      match env.truncateErr with
      | some e =>
        { written := 0, err := some e, dest := DestFile.created r.1 none }
      | none =>
        { written := (r.2.1 : Int), err := none,
          dest := DestFile.created r.1 (some r.2.1) }

/-- Sample successful download environment. -/
def sampleDownloadEnv : DownloadEnv :=
  { url := "http://origin/parrot.raw", newRequestErr := none,
    clientDoErr := none, statusCode := 200, status := "200 OK",
    createErr := none, body := sampleSteps, truncateErr := none }

/-- Sample failing download environment: the body read errors out
after delivering two non-zero bytes. -/
def sampleFailedDownloadEnv : DownloadEnv :=
  { url := "http://origin/parrot.raw", newRequestErr := none,
    clientDoErr := none, statusCode := 200, status := "200 OK",
    createErr := none,
    body := [{ chunk := [7, 7], rErr := some (ReadErr.other "connection reset") }],
    truncateErr := none }

/-! ### HTTP control endpoints -/

/-- Rendering of a state into the failure diagnostics
(`types.State` string values). -/
def FileState.name : FileState → String
  | FileState.pending => "pending"
  | FileState.starting => "starting"
  | FileState.inProgress => "in-progress"
  | FileState.ready => "ready"
  | FileState.failed => "failed"
  | FileState.unknown => "unknown"

/-- Parsed query parameters of `POST /files/fetch` (`doFetch`), after
`strconv.ParseInt` succeeded on `size`. -/
structure FetchParams where
  srcFilePath : String
  dstFilePath : String
  uuid : String
  diskUUID : String
  expectedChecksum : String
  size : Int
deriving DecidableEq, Repr

/-- `Service.doFetch`: validate the query parameters in source order,
then register through `checkAndInitSyncFile`. The goroutine that
performs the actual fetch runs after registration and is outside the
registry model. -/
def doFetch (s : ServiceState) (p : FetchParams) : Except String ServiceState :=
  if p.srcFilePath = "" then
    Except.error "no srcFilePath for existing file fetch"
  else if p.dstFilePath = "" then
    Except.error "no dstFilePath for existing file fetch"
  else if p.uuid = "" then
    Except.error "no uuid for existing file fetch"
  else if p.diskUUID = "" then
    Except.error "no diskUUID for existing file fetch"
  else if p.size % DefaultSectorSize ≠ 0 then
    Except.error "the file size should be a multiple of 512 bytes since Longhorn uses directIO by default"
  else
    match checkAndInitSyncFile s p.dstFilePath p.uuid p.diskUUID
        p.expectedChecksum p.size with
    | Except.error e => Except.error e
    | Except.ok (s', _) => Except.ok s'

/-- Parsed query parameters of `POST /files/download-from-url`
(`doDownloadFromURL`). -/
structure DownloadURLParams where
  filePath : String
  uuid : String
  url : String
  diskUUID : String
  expectedChecksum : String
  dataEngine : String
deriving DecidableEq, Repr

/-- `Service.doDownloadFromURL`: validate the query parameters in
source order, then register with size 0 (unknown until the source
declares it). The download goroutine is outside the registry model. -/
def doDownloadFromURL (s : ServiceState) (p : DownloadURLParams) :
    Except String ServiceState :=
  if p.filePath = "" then
    Except.error "no filePath for file downloading"
  else if p.uuid = "" then
    Except.error "no uuid for downloading file"
  else if p.url = "" then
    Except.error "no URL for file downloading"
  else
    match checkAndInitSyncFile s p.filePath p.uuid p.diskUUID
        p.expectedChecksum 0 with
    | Except.error e => Except.error e
    | Except.ok (s', _) => Except.ok s'

/-- Parsed query parameters of `POST /files/upload`
(`doUploadFromRequest`), after `strconv.ParseInt` succeeded on
`size`. -/
structure UploadParams where
  filePath : String
  uuid : String
  diskUUID : String
  expectedChecksum : String
  size : Int
  dataEngine : String
deriving DecidableEq, Repr

/-- `Service.doUploadFromRequest` up to registration: validate the
query parameters in source order, then register through
`checkAndInitSyncFile`. The multipart reading and the synchronous copy
that follow are outside the registry model. -/
def doUploadFromRequest (s : ServiceState) (p : UploadParams) :
    Except String ServiceState :=
  if p.filePath = "" then
    Except.error "no file-path for uploading file"
  else if p.uuid = "" then
    Except.error "no uuid for uploading file"
  else if p.size % DefaultSectorSize ≠ 0 then
    Except.error "the uploaded file size should be a multiple of 512 bytes since Longhorn uses directIO by default"
  else
    match checkAndInitSyncFile s p.filePath p.uuid p.diskUUID
        p.expectedChecksum p.size with
    | Except.error e => Except.error e
    | Except.ok (s', _) => Except.ok s'

/-- Parsed query parameters of `POST /files/receive-from-peer`
(`doReceiveFromPeer`); `port` is `none` when `strconv.ParseInt` fails
on it. -/
structure ReceiveParams where
  filePath : String
  uuid : String
  diskUUID : String
  expectedChecksum : String
  fileType : String
  size : Int
  port : Option Int
  dataEngine : String
deriving DecidableEq, Repr

/-- `Service.doReceiveFromPeer`: validate the query parameters in
source order (an empty `file-type` defaults to raw), then register
through `checkAndInitSyncFile`. The receiving goroutine is outside the
registry model. -/
def doReceiveFromPeer (s : ServiceState) (p : ReceiveParams) :
    Except String ServiceState :=
  if p.filePath = "" then
    Except.error "no filePath for file requesting"
  else if p.uuid = "" then
    Except.error "no uuid for file requesting"
  else
    if (if p.fileType = "" then "raw" else p.fileType) ≠ "raw" ∧
        (if p.fileType = "" then "raw" else p.fileType) ≠ "qcow2" then
      Except.error ""
    else if p.size % DefaultSectorSize ≠ 0 then
      Except.error "the uploaded file size should be a multiple of 512 bytes since Longhorn uses directIO by default"
    else
      match p.port with
      | none => Except.error "invalid syntax"
      | some _ =>
        match checkAndInitSyncFile s p.filePath p.uuid p.diskUUID
            p.expectedChecksum p.size with
        | Except.error e => Except.error e
        | Except.ok (s', _) => Except.ok s'

/-- Parsed query parameters of `POST /files/clone`
(`doCloneFromBackingImage`). -/
structure CloneParams where
  backingImage : String
  backingImageUUID : String
  encryption : String
  filePath : String
  uuid : String
  diskUUID : String
  expectedChecksum : String
  dataEngine : String
deriving DecidableEq, Repr

/-- `Service.doCloneFromBackingImage`: validate the query parameters
in source order (the encryption mode must be one of encrypt, decrypt,
ignore), then register with size 0. The credential decode from the
body and the clone goroutine are outside the registry model. -/
def doCloneFromBackingImage (s : ServiceState) (p : CloneParams) :
    Except String ServiceState :=
  if p.backingImage = "" then
    Except.error "backing-image is not specified"
  else if p.backingImageUUID = "" then
    Except.error "backing-image-uuid is not specified"
  else if p.encryption ≠ "encrypt" ∧ p.encryption ≠ "decrypt" ∧
      p.encryption ≠ "ignore" then
    Except.error ("encryption operation " ++ p.encryption ++ " is not specified")
  else if p.filePath = "" then
    Except.error "no filePath restoring file"
  else if p.uuid = "" then
    Except.error "no uuid for restoring file"
  else
    match checkAndInitSyncFile s p.filePath p.uuid p.diskUUID
        p.expectedChecksum 0 with
    | Except.error e => Except.error e
    | Except.ok (s', _) => Except.ok s'

/-- Registry state the `Fetch` handler leaves behind: on error the
registry is untouched. -/
def fetchState (s : ServiceState) (p : FetchParams) : ServiceState :=
  match doFetch s p with
  | Except.error _ => s
  | Except.ok s' => s'

/-- Registry state the `UploadFromRequest` handler leaves behind up to
registration. -/
def uploadState (s : ServiceState) (p : UploadParams) : ServiceState :=
  match doUploadFromRequest s p with
  | Except.error _ => s
  | Except.ok s' => s'

/-- Registry state the `ReceiveFromPeer` handler leaves behind. -/
def receiveState (s : ServiceState) (p : ReceiveParams) : ServiceState :=
  match doReceiveFromPeer s p with
  | Except.error _ => s
  | Except.ok s' => s'

/-- HTTP status written by `Service.Fetch`: `http.Error` with
`http.StatusInternalServerError` when `doFetch` fails, implicit 200
otherwise. -/
def fetchStatus (s : ServiceState) (p : FetchParams) : Nat :=
  match doFetch s p with
  | Except.error _ => 500
  | Except.ok _ => 200

/-- HTTP status written by `Service.DownloadFromURL` (500 on any
`doDownloadFromURL` error). -/
def downloadFromURLStatus (s : ServiceState) (p : DownloadURLParams) : Nat :=
  match doDownloadFromURL s p with
  | Except.error _ => 500
  | Except.ok _ => 200

/-- HTTP status written by `Service.UploadFromRequest` (500 on any
`doUploadFromRequest` error). -/
def uploadStatus (s : ServiceState) (p : UploadParams) : Nat :=
  match doUploadFromRequest s p with
  | Except.error _ => 500
  | Except.ok _ => 200

/-- HTTP status written by `Service.ReceiveFromPeer` (500 on any
`doReceiveFromPeer` error). -/
def receiveStatus (s : ServiceState) (p : ReceiveParams) : Nat :=
  match doReceiveFromPeer s p with
  | Except.error _ => 500
  | Except.ok _ => 200

/-- HTTP status written by `Service.CloneFromBackingImage` (500 on any
`doCloneFromBackingImage` error). -/
def cloneStatus (s : ServiceState) (p : CloneParams) : Nat :=
  match doCloneFromBackingImage s p with
  | Except.error _ => 500
  | Except.ok _ => 200

/-- `Service.Get` for an id that URL-decoded to `filePath`: 404 when
the path is not registered, 200 otherwise. -/
def getStatus (s : ServiceState) (filePath : String) : Nat :=
  match alookup filePath s.filePathMap with
  | none => 404
  | some _ => 200

/-- `Service.Delete` for an id that URL-decoded to `filePath`:
`doCleanup` only fails on URL-decoding, so the handler always calls
`cleanup` (with disk unlink) and answers 200, registered or not. -/
def deleteHandler (s : ServiceState) (filePath : String) :
    Nat × ServiceState :=
  (200, cleanup s filePath true)

/-- `Service.Forget` for an id that URL-decoded to `filePath`: like
`Delete` but without the disk unlink. -/
def forgetHandler (s : ServiceState) (filePath : String) :
    Nat × ServiceState :=
  (200, cleanup s filePath false)

/-- `Service.doSendToPeer` for an id that URL-decoded to `filePath`,
with the `sf.Send` call abstracted as `sendOutcome` (the `SyncingFile`
transfer method is outside the service source). -/
def doSendToPeer (s : ServiceState) (filePath toAddress : String)
    (sendOutcome : Except String Unit) : Except String Unit :=
  if filePath = "" then
    Except.error "no filePath for file sending"
  else if toAddress = "" then
    Except.error "no toAddress for file sending"
  else
    match alookup filePath s.filePathMap with
    | none => Except.error ("can not find sync file " ++ filePath ++ " for sending")
    | some _ => sendOutcome

/-- HTTP status written by `Service.SendToPeer` (500 on any
`doSendToPeer` error). -/
def sendToPeerStatus (s : ServiceState) (filePath toAddress : String)
    (sendOutcome : Except String Unit) : Nat :=
  match doSendToPeer s filePath toAddress sendOutcome with
  | Except.error _ => 500
  | Except.ok _ => 200

/-- HTTP request methods reaching `DownloadToDst`. -/
inductive HttpMethod where
  | get
  | head
deriving DecidableEq, Repr

/-- `Service.DownloadToDst` outcome for an id that URL-decoded to
`filePath`: the error reported via `http.Error` with status 500, if
any, and the file bytes streamed to the client (for the default path,
the bytes fed into the gzip writer; for HEAD in `forV2Creation` mode,
headers only). The `os.Stat`/`os.Open` failures of a ready file are
not modelled: the claims concern the refusal that happens before any
disk access. -/
def DownloadToDst (s : ServiceState) (filePath : String)
    (forV2Creation : Bool) (method : HttpMethod) (fileContent : List Nat) :
    Option String × List Nat :=
  match alookup filePath s.filePathMap with
  | none => (some ("nil sync file " ++ filePath), [])
  | some sf =>
    if sf.state ≠ FileState.ready then
      (some ("cannot get the reader for a non-ready file, current state " ++
        sf.state.name), [])
    else if forV2Creation then
      if method = HttpMethod.head then (none, [])
      else (none, fileContent)
    else (none, fileContent)

/-- Fetch request with a missing `src-file-path` parameter. -/
def missingSrcFetchParams : FetchParams :=
  { srcFilePath := "", dstFilePath := "/data/a-u1/backing", uuid := "u1",
    diskUUID := "disk1", expectedChecksum := "", size := 4096 }

/-- Fetch request with a size that is not sector aligned. -/
def misalignedFetchParams : FetchParams :=
  { srcFilePath := "/old/backing", dstFilePath := "/data/a-u1/backing",
    uuid := "u1", diskUUID := "disk1", expectedChecksum := "", size := 4097 }

/-- Upload request with a size that is not sector aligned. -/
def misalignedUploadParams : UploadParams :=
  { filePath := "/data/a-u1/backing", uuid := "u1", diskUUID := "disk1",
    expectedChecksum := "", size := 4097, dataEngine := "v1" }

/-- Receive request with a size that is not sector aligned. -/
def misalignedReceiveParams : ReceiveParams :=
  { filePath := "/data/a-u1/backing", uuid := "u1", diskUUID := "disk1",
    expectedChecksum := "", fileType := "raw", size := 4097,
    port := some 8002, dataEngine := "v1" }

/-- Download request with a missing `url` parameter. -/
def missingURLDownloadParams : DownloadURLParams :=
  { filePath := "/data/a-u1/backing", uuid := "u1", url := "",
    diskUUID := "disk1", expectedChecksum := "", dataEngine := "v1" }

/-- Clone request with an unrecognized encryption mode. -/
def badEncryptionCloneParams : CloneParams :=
  { backingImage := "parrot", backingImageUUID := "u0",
    encryption := "scramble", filePath := "/data/a-u1/backing",
    uuid := "u1", diskUUID := "disk1", expectedChecksum := "",
    dataEngine := "v1" }

/-! ### Association-list lemmas -/

theorem alookup_eq_none_iff {k : String} {m : FileMap} :
    alookup k m = none ↔ ∀ v, (k, v) ∉ m := by
  induction m with
  | nil => simp [alookup]
  | cons e rest ih =>
    obtain ⟨k', v'⟩ := e
    by_cases h : k = k'
    · subst h
      simp only [alookup, if_pos rfl]
      constructor
      · intro hnone
        exact Option.noConfusion hnone
      · intro hall
        exact absurd (List.mem_cons_self (k, v') rest) (hall v')
    · simp only [alookup, if_neg h, ih, List.mem_cons]
      constructor
      · intro hall v hv
        rcases hv with hv | hv
        · exact h (congrArg Prod.fst hv)
        · exact hall v hv
      · intro hall v hv
        exact hall v (Or.inr hv)

theorem alookup_mem {k : String} {v : SyncingFile} {m : FileMap}
    (h : alookup k m = some v) : (k, v) ∈ m := by
  induction m with
  | nil => simp [alookup] at h
  | cons e rest ih =>
    obtain ⟨k', v'⟩ := e
    by_cases hk : k = k'
    · subst hk
      have hstep : alookup k ((k, v') :: rest) = some v' := by
        simp [alookup]
      rw [hstep] at h
      injection h with h
      subst h
      exact List.mem_cons_self _ _
    · simp only [alookup, if_neg hk] at h
      exact List.mem_cons_of_mem _ (ih h)

theorem mem_alookup {k : String} {v : SyncingFile} {m : FileMap}
    (hm : (m.map Prod.fst).Nodup) (h : (k, v) ∈ m) : alookup k m = some v := by
  induction m with
  | nil => simp at h
  | cons e rest ih =>
    obtain ⟨k', v'⟩ := e
    simp only [List.map_cons, List.nodup_cons] at hm
    rcases List.mem_cons.mp h with he | he
    · have hk : k = k' := congrArg Prod.fst he
      have hv : v = v' := congrArg Prod.snd he
      subst hk
      subst hv
      simp [alookup]
    · by_cases hk : k = k'
      · subst hk
        exact absurd (List.mem_map_of_mem Prod.fst he) hm.1
      · simp only [alookup, if_neg hk]
        exact ih hm.2 he

theorem mem_aerase {e : String × SyncingFile} {k : String} {m : FileMap} :
    e ∈ aerase k m ↔ e ∈ m ∧ e.1 ≠ k := by
  simp [aerase, List.mem_filter]

theorem aerase_keys_nodup {k : String} {m : FileMap}
    (h : (m.map Prod.fst).Nodup) : ((aerase k m).map Prod.fst).Nodup :=
  ((List.filter_sublist m).map Prod.fst).nodup h

theorem alookup_aerase_ne {k k' : String} (m : FileMap) (h : k ≠ k') :
    alookup k (aerase k' m) = alookup k m := by
  induction m with
  | nil => rfl
  | cons e rest ih =>
    obtain ⟨ke, ve⟩ := e
    by_cases hke : ke = k'
    · subst hke
      have hfilter : aerase ke ((ke, ve) :: rest) = aerase ke rest := by
        simp [aerase, List.filter_cons]
      have hstep : alookup k ((ke, ve) :: rest) = alookup k rest := by
        simp [alookup, if_neg h]
      rw [hfilter, hstep, ih]
    · have hfilter : aerase k' ((ke, ve) :: rest) = (ke, ve) :: aerase k' rest := by
        simp [aerase, List.filter_cons, hke]
      rw [hfilter]
      by_cases hk : k = ke
      · subst hk
        simp [alookup]
      · simp only [alookup, if_neg hk]
        exact ih

theorem aerase_of_alookup_none {k : String} {m : FileMap}
    (h : alookup k m = none) : aerase k m = m := by
  rw [alookup_eq_none_iff] at h
  apply List.filter_eq_self.mpr
  intro e he
  obtain ⟨ke, ve⟩ := e
  simp only [decide_eq_true_eq, ne_eq]
  intro hk
  subst hk
  exact h ve he

/-! ### Equations of `checkAndInitSyncFile` -/

theorem checkAndInit_path_conflict {s : ServiceState}
    {p u d c : String} {z : Int} (hp : (alookup p s.filePathMap).isSome) :
    checkAndInitSyncFile s p u d c z =
      Except.error ("file " ++ p ++ " already exists") := by
  unfold checkAndInitSyncFile
  rw [if_pos hp]

theorem checkAndInit_uuid_conflict {s : ServiceState}
    {p u d c : String} {z : Int} (hp : ¬ (alookup p s.filePathMap).isSome)
    (hu : (alookup u s.fileUUIDMap).isSome) :
    checkAndInitSyncFile s p u d c z =
      Except.error ("file " ++ p ++ " with uuid " ++ u ++ " already exists") := by
  unfold checkAndInitSyncFile
  rw [if_neg hp, if_pos hu]

theorem checkAndInit_ok {s : ServiceState}
    {p u d c : String} {z : Int} (hp : alookup p s.filePathMap = none)
    (hu : alookup u s.fileUUIDMap = none) :
    checkAndInitSyncFile s p u d c z =
      Except.ok ({ filePathMap := (p, NewSyncingFile p u d c z) :: s.filePathMap,
                   fileUUIDMap := (u, NewSyncingFile p u d c z) :: s.fileUUIDMap },
                 NewSyncingFile p u d c z) := by
  unfold checkAndInitSyncFile
  rw [if_neg (by simp [hp]), if_neg (by simp [hu])]

/-! ### The registry invariant -/

/-- Mutual consistency of the two index maps: keys are distinct in
each, a path entry's key is the file's own `filePath` and the file is
indexed under its `uuid` in the other map, and symmetrically. -/
def RegistryInv (s : ServiceState) : Prop :=
  (s.filePathMap.map Prod.fst).Nodup ∧
  (s.fileUUIDMap.map Prod.fst).Nodup ∧
  (∀ e ∈ s.filePathMap, e.1 = e.2.filePath ∧
    alookup e.2.uuid s.fileUUIDMap = some e.2) ∧
  (∀ e ∈ s.fileUUIDMap, e.1 = e.2.uuid ∧
    alookup e.2.filePath s.filePathMap = some e.2)

theorem registryInv_init : RegistryInv ServiceState.init := by
  refine ⟨List.nodup_nil, List.nodup_nil, ?_, ?_⟩ <;>
    intro e he <;> simp [ServiceState.init] at he

theorem registryInv_cleanup (s : ServiceState) (p : String) (b : Bool)
    (h : RegistryInv s) : RegistryInv (cleanup s p b) := by
  obtain ⟨hpn, hun, hpc, huc⟩ := h
  unfold cleanup
  cases hlk : alookup p s.filePathMap with
  | none =>
    rw [aerase_of_alookup_none hlk]
    exact ⟨hpn, hun, hpc, huc⟩
  | some f =>
    have hfmem : (p, f) ∈ s.filePathMap := alookup_mem hlk
    obtain ⟨hfp, hfu⟩ := hpc (p, f) hfmem
    refine ⟨aerase_keys_nodup hpn, aerase_keys_nodup hun, ?_, ?_⟩
    · intro e he
      obtain ⟨hem, hek⟩ := mem_aerase.mp he
      obtain ⟨h1, h2⟩ := hpc e hem
      refine ⟨h1, ?_⟩
      have hne : e.2.uuid ≠ f.uuid := by
        intro heq
        rw [heq, hfu] at h2
        have hef : f = e.2 := by injection h2
        apply hek
        rw [h1, ← hef, ← hfp]
      rw [alookup_aerase_ne _ hne]
      exact h2
    · intro e he
      obtain ⟨hem, hek⟩ := mem_aerase.mp he
      obtain ⟨h1, h2⟩ := huc e hem
      refine ⟨h1, ?_⟩
      have hne : e.2.filePath ≠ p := by
        intro heq
        rw [heq, hlk] at h2
        have hef : f = e.2 := by injection h2
        apply hek
        rw [h1, ← hef]
      rw [alookup_aerase_ne _ hne]
      exact h2

theorem registryInv_preserved (s : ServiceState) (op : Op)
    (h : RegistryInv s) : RegistryInv (applyOp s op) := by
  cases op with
  | register p u d c z =>
    obtain ⟨hpn, hun, hpc, huc⟩ := h
    simp only [applyOp]
    by_cases hp : (alookup p s.filePathMap).isSome
    · rw [checkAndInit_path_conflict hp]
      exact ⟨hpn, hun, hpc, huc⟩
    · by_cases hu : (alookup u s.fileUUIDMap).isSome
      · rw [checkAndInit_uuid_conflict hp hu]
        exact ⟨hpn, hun, hpc, huc⟩
      · have hpnone : alookup p s.filePathMap = none :=
          Option.not_isSome_iff_eq_none.mp hp
        have hunone : alookup u s.fileUUIDMap = none :=
          Option.not_isSome_iff_eq_none.mp hu
        rw [checkAndInit_ok hpnone hunone]
        refine ⟨?_, ?_, ?_, ?_⟩
        · simp only [List.map_cons, List.nodup_cons]
          refine ⟨?_, hpn⟩
          intro hmem
          obtain ⟨e, he, hke⟩ := List.mem_map.mp hmem
          obtain ⟨kp, vp⟩ := e
          subst hke
          exact (alookup_eq_none_iff.mp hpnone) vp he
        · simp only [List.map_cons, List.nodup_cons]
          refine ⟨?_, hun⟩
          intro hmem
          obtain ⟨e, he, hke⟩ := List.mem_map.mp hmem
          obtain ⟨ku, vu⟩ := e
          subst hke
          exact (alookup_eq_none_iff.mp hunone) vu he
        · intro e he
          rcases List.mem_cons.mp he with he | he
          · subst he
            exact ⟨rfl, by simp [alookup, NewSyncingFile]⟩
          · obtain ⟨h1, h2⟩ := hpc e he
            refine ⟨h1, ?_⟩
            have hne : e.2.uuid ≠ u := by
              intro heq
              rw [heq, hunone] at h2
              exact Option.noConfusion h2
            simpa [alookup, hne] using h2
        · intro e he
          rcases List.mem_cons.mp he with he | he
          · subst he
            exact ⟨rfl, by simp [alookup, NewSyncingFile]⟩
          · obtain ⟨h1, h2⟩ := huc e he
            refine ⟨h1, ?_⟩
            have hne : e.2.filePath ≠ p := by
              intro heq
              rw [heq, hpnone] at h2
              exact Option.noConfusion h2
            simpa [alookup, hne] using h2
  | delete p => exact registryInv_cleanup s p true h
  | forget p => exact registryInv_cleanup s p false h

theorem registryInv_applyOps (ops : List Op) : RegistryInv (applyOps ops) := by
  simp only [applyOps]
  induction ops using List.reverseRecOn with
  | nil => exact registryInv_init
  | append_singleton l op ih =>
    rw [List.foldl_append, List.foldl_cons, List.foldl_nil]
    exact registryInv_preserved _ _ ih

theorem countP_eq_one_of_unique {α : Type} {p : α → Bool} {e : α} {l : List α}
    (hl : l.Nodup) (he : e ∈ l) (hp : p e = true)
    (huniq : ∀ x ∈ l, p x = true → x = e) : l.countP p = 1 := by
  induction l with
  | nil => simp at he
  | cons a t ih =>
    simp only [List.nodup_cons] at hl
    rcases List.mem_cons.mp he with rfl | hmem
    · rw [List.countP_cons, if_pos hp]
      have hzero : t.countP p = 0 := by
        rw [List.countP_eq_zero]
        intro x hx hpx
        exact hl.1 ((huniq x (List.mem_cons_of_mem _ hx) hpx) ▸ hx)
      rw [hzero]
    · have hpa : p a = false := by
        cases hv : p a with
        | false => rfl
        | true =>
          have haeq := huniq a (List.mem_cons_self _ _) hv
          exact absurd (haeq ▸ hmem) hl.1
      rw [List.countP_cons, if_neg (by simp [hpa]), Nat.add_zero]
      exact ih hl.2 hmem (fun x hx hpx => huniq x (List.mem_cons_of_mem _ hx) hpx)

theorem registryInv_live_file (s : ServiceState) (h : RegistryInv s)
    (sf : SyncingFile) (hlive : sf ∈ s.filePathMap.map Prod.snd) :
    s.filePathMap.countP (fun e => decide (e.2 = sf)) = 1 ∧
    s.fileUUIDMap.countP (fun e => decide (e.2 = sf)) = 1 ∧
    alookup sf.filePath s.filePathMap = some sf ∧
    alookup sf.uuid s.fileUUIDMap = some sf ∧
    (∀ e ∈ s.fileUUIDMap, e.2 ∈ s.filePathMap.map Prod.snd) := by
  obtain ⟨hpn, hun, hpc, huc⟩ := h
  obtain ⟨ep, hep, hsnd⟩ := List.mem_map.mp hlive
  obtain ⟨h1, h2⟩ := hpc ep hep
  have hepEq : ep = (sf.filePath, sf) := by
    obtain ⟨k, v⟩ := ep
    simp only at hsnd h1
    subst hsnd
    rw [h1]
  have hmemPath : (sf.filePath, sf) ∈ s.filePathMap := hepEq ▸ hep
  have hlkPath : alookup sf.filePath s.filePathMap = some sf :=
    mem_alookup hpn hmemPath
  have hlkUUID : alookup sf.uuid s.fileUUIDMap = some sf := by
    have := h2
    rw [hepEq] at this
    exact this
  have hmemUUID : (sf.uuid, sf) ∈ s.fileUUIDMap := alookup_mem hlkUUID
  refine ⟨?_, ?_, hlkPath, hlkUUID, ?_⟩
  · refine countP_eq_one_of_unique (List.Nodup.of_map _ hpn) hmemPath
      (by simp) ?_
    intro x hx hpx
    have hx2 : x.2 = sf := by simpa using hpx
    obtain ⟨hx1, _⟩ := hpc x hx
    obtain ⟨k, v⟩ := x
    simp only at hx1 hx2
    subst hx2
    rw [hx1]
  · refine countP_eq_one_of_unique (List.Nodup.of_map _ hun) hmemUUID
      (by simp) ?_
    intro x hx hpx
    have hx2 : x.2 = sf := by simpa using hpx
    obtain ⟨hx1, _⟩ := huc x hx
    obtain ⟨k, v⟩ := x
    simp only at hx1 hx2
    subst hx2
    rw [hx1]
  · intro e he
    obtain ⟨_, h2'⟩ := huc e he
    have hmem : (e.2.filePath, e.2) ∈ s.filePathMap := alookup_mem h2'
    exact List.mem_map.mpr ⟨(e.2.filePath, e.2), hmem, rfl⟩

/-- C1: after every finite sequence of register (`checkAndInitSyncFile`)
and cleanup (`Delete` or `Forget`) operations, each live Syncing File
has exactly one entry in the `filePath` index and exactly one entry in
the `uuid` index, those two entries reference the same object, and no
index entry refers to a non-live file. -/
theorem c1_registry_index_consistency (ops : List Op) (sf : SyncingFile)
    (hlive : sf ∈ (applyOps ops).filePathMap.map Prod.snd) :
    (applyOps ops).filePathMap.countP (fun e => decide (e.2 = sf)) = 1 ∧
    (applyOps ops).fileUUIDMap.countP (fun e => decide (e.2 = sf)) = 1 ∧
    alookup sf.filePath (applyOps ops).filePathMap = some sf ∧
    alookup sf.uuid (applyOps ops).fileUUIDMap = some sf ∧
    (∀ e ∈ (applyOps ops).fileUUIDMap,
      e.2 ∈ (applyOps ops).filePathMap.map Prod.snd) :=
  registryInv_live_file _ (registryInv_applyOps ops) sf hlive

theorem c1_registry_index_consistency_witness :
    sampleFile ∈ (applyOps sampleOps).filePathMap.map Prod.snd ∧
    ((applyOps sampleOps).filePathMap.countP
        (fun e => decide (e.2 = sampleFile)) = 1 ∧
      (applyOps sampleOps).fileUUIDMap.countP
        (fun e => decide (e.2 = sampleFile)) = 1 ∧
      alookup sampleFile.filePath (applyOps sampleOps).filePathMap =
        some sampleFile ∧
      alookup sampleFile.uuid (applyOps sampleOps).fileUUIDMap =
        some sampleFile ∧
      (∀ e ∈ (applyOps sampleOps).fileUUIDMap,
        e.2 ∈ (applyOps sampleOps).filePathMap.map Prod.snd)) :=
  ⟨by decide, c1_registry_index_consistency sampleOps sampleFile (by decide)⟩

/-- C2: if a Syncing File with the same `filePath` is already
registered, or one with the same `uuid` is already registered (even
under a different `filePath`), `checkAndInitSyncFile` fails with a
conflict error, no new entity is created, and neither index map is
modified. -/
theorem c2_register_conflict (s : ServiceState) (p u d c : String) (z : Int)
    (hconf : (alookup p s.filePathMap).isSome ∨
      (alookup u s.fileUUIDMap).isSome) :
    (∃ msg, checkAndInitSyncFile s p u d c z = Except.error msg) ∧
    applyOp s (Op.register p u d c z) = s := by
  by_cases hp : (alookup p s.filePathMap).isSome
  · refine ⟨⟨_, checkAndInit_path_conflict hp⟩, ?_⟩
    simp only [applyOp]
    rw [checkAndInit_path_conflict hp]
  · have hu : (alookup u s.fileUUIDMap).isSome := by
      rcases hconf with hc | hc
      · exact absurd hc hp
      · exact hc
    refine ⟨⟨_, checkAndInit_uuid_conflict hp hu⟩, ?_⟩
    simp only [applyOp]
    rw [checkAndInit_uuid_conflict hp hu]

theorem c2_register_conflict_witness :
    ((alookup "/data/other" (applyOps sampleOps).filePathMap).isSome ∨
      (alookup "u1" (applyOps sampleOps).fileUUIDMap).isSome) ∧
    ((∃ msg, checkAndInitSyncFile (applyOps sampleOps)
        "/data/other" "u1" "disk1" "" 512 = Except.error msg) ∧
      applyOp (applyOps sampleOps)
        (Op.register "/data/other" "u1" "disk1" "" 512) = applyOps sampleOps) :=
  ⟨by decide,
    c2_register_conflict (applyOps sampleOps) "/data/other" "u1" "disk1" "" 512
      (by decide)⟩

/-! ### Copy-pump lemmas -/

theorem loop_events_eq (writeZero : Bool) (steps : List ReadStep) :
    (idleTimeoutCopyLoop writeZero steps).1 =
      ((processedSteps steps).map (specStepEvents writeZero)).flatten := by
  induction steps with
  | nil => rfl
  | cons step rest ih =>
    cases hre : step.rErr with
    | none =>
      simp only [idleTimeoutCopyLoop, processedSteps, hre, List.map_cons,
        List.flatten_cons]
      rw [← ih]
      congr 1
      simp only [specStepEvents]
      split
      · split <;> rfl
      · rfl
    | some e =>
      cases e with
      | eof =>
        simp only [idleTimeoutCopyLoop, processedSteps, hre, List.map_cons,
          List.map_nil, List.flatten_cons, List.flatten_nil, List.append_nil]
        simp only [specStepEvents]
        split
        · split <;> rfl
        · rfl
      | other msg =>
        simp only [idleTimeoutCopyLoop, processedSteps, hre, List.map_cons,
          List.map_nil, List.flatten_cons, List.flatten_nil, List.append_nil]
        simp only [specStepEvents]
        split
        · split <;> rfl
        · rfl

theorem writtenBytes_append (a b : List CopyEvent) :
    writtenBytes (a ++ b) = writtenBytes a + writtenBytes b := by
  simp [writtenBytes]

theorem writtenBytes_join (ls : List (List CopyEvent)) :
    writtenBytes ls.flatten = (ls.map writtenBytes).sum := by
  induction ls with
  | nil => rfl
  | cons a t ih => simp [List.flatten_cons, writtenBytes_append, ih]

theorem specStepEvents_written_le (writeZero : Bool) (s : ReadStep) :
    writtenBytes (specStepEvents writeZero s) ≤ s.chunk.length := by
  by_cases hc : (!writeZero && isZeroChunk s.chunk) = true <;>
      by_cases h1 : 0 < s.chunk.length <;>
    simp [specStepEvents, hc, h1, writtenBytes]

theorem specStepEvents_written_sparse (s : ReadStep) :
    writtenBytes (specStepEvents false s) ≤
      if isZeroChunk s.chunk then 0 else s.chunk.length := by
  by_cases hz : isZeroChunk s.chunk <;> by_cases h1 : 0 < s.chunk.length <;>
    simp [specStepEvents, hz, h1, writtenBytes]

theorem totalReadBytes_processed_le (steps : List ReadStep) :
    totalReadBytes (processedSteps steps) ≤ totalReadBytes steps := by
  induction steps with
  | nil => exact le_refl _
  | cons s r ih =>
    cases hre : s.rErr with
    | none =>
      simp only [processedSteps, hre, totalReadBytes, List.map_cons,
        List.sum_cons]
      simp only [totalReadBytes] at ih
      omega
    | some e =>
      simp only [processedSteps, hre, totalReadBytes, List.map_cons,
        List.map_nil, List.sum_cons, List.sum_nil]
      omega

theorem nonZeroReadBytes_cons (s : ReadStep) (r : List ReadStep) :
    nonZeroReadBytes (s :: r) =
      (if isZeroChunk s.chunk then 0 else s.chunk.length) +
        nonZeroReadBytes r := by
  by_cases hz : isZeroChunk s.chunk <;>
    simp [nonZeroReadBytes, List.filter_cons, hz]

theorem nonZeroReadBytes_eq_sum (l : List ReadStep) :
    (l.map (fun s => if isZeroChunk s.chunk then 0 else s.chunk.length)).sum =
      nonZeroReadBytes l := by
  induction l with
  | nil => rfl
  | cons s r ih => rw [List.map_cons, List.sum_cons, nonZeroReadBytes_cons, ih]

theorem nonZeroReadBytes_processed_le (steps : List ReadStep) :
    nonZeroReadBytes (processedSteps steps) ≤ nonZeroReadBytes steps := by
  induction steps with
  | nil => exact le_refl _
  | cons s r ih =>
    cases hre : s.rErr with
    | none =>
      simp only [processedSteps, hre, nonZeroReadBytes_cons]
      omega
    | some e =>
      simp only [processedSteps, hre, nonZeroReadBytes_cons]
      have hnil : nonZeroReadBytes ([] : List ReadStep) = 0 := rfl
      rw [hnil]
      omega

/-- C3: in every execution of `IdleTimeoutCopy` with `writeZero=false`,
the destination receives exactly one seek of the chunk length for each
all-zero read and one full write for each non-zero read (in read
order), and no `Write` call ever carries an all-zero buffer. -/
theorem c3_sparse_zero_skip (steps : List ReadStep) :
    (idleTimeoutCopyLoop false steps).1 =
      ((processedSteps steps).map (specStepEvents false)).flatten ∧
    ∀ d, CopyEvent.write d ∈ (idleTimeoutCopyLoop false steps).1 →
      isZeroChunk d = false ∧ ∃ s ∈ processedSteps steps, s.chunk = d := by
  refine ⟨loop_events_eq false steps, ?_⟩
  intro d hd
  rw [loop_events_eq] at hd
  obtain ⟨evs, hevs, hdm⟩ := List.mem_flatten.mp hd
  obtain ⟨s, hs, rfl⟩ := List.mem_map.mp hevs
  by_cases h1 : 0 < s.chunk.length
  · by_cases hz : isZeroChunk s.chunk
    · simp [specStepEvents, h1, hz] at hdm
    · simp only [specStepEvents, if_pos h1, Bool.not_false, Bool.true_and,
        if_neg hz, List.mem_singleton] at hdm
      have hdc : d = s.chunk := by
        injection hdm
      subst hdc
      exact ⟨Bool.eq_false_iff.mpr hz, s, hs, rfl⟩
  · simp [specStepEvents, h1] at hdm

/-- C7: the copy pump never writes more bytes to the destination than
it reads from the source, and with `writeZero=false` it writes at most
the bytes delivered by reads whose buffers are not entirely zero. -/
theorem c7_copy_write_bound (writeZero : Bool) (steps : List ReadStep) :
    writtenBytes (idleTimeoutCopyLoop writeZero steps).1 ≤
      totalReadBytes steps ∧
    writtenBytes (idleTimeoutCopyLoop false steps).1 ≤
      nonZeroReadBytes steps := by
  constructor
  · rw [loop_events_eq, writtenBytes_join, List.map_map]
    calc ((processedSteps steps).map
            (writtenBytes ∘ specStepEvents writeZero)).sum
        ≤ ((processedSteps steps).map (fun s => s.chunk.length)).sum :=
          List.sum_le_sum (fun s _ => specStepEvents_written_le writeZero s)
      _ = totalReadBytes (processedSteps steps) := rfl
      _ ≤ totalReadBytes steps := totalReadBytes_processed_le steps
  · rw [loop_events_eq, writtenBytes_join, List.map_map]
    calc ((processedSteps steps).map
            (writtenBytes ∘ specStepEvents false)).sum
        ≤ ((processedSteps steps).map
            (fun s => if isZeroChunk s.chunk then 0 else s.chunk.length)).sum :=
          List.sum_le_sum (fun s _ => specStepEvents_written_sparse s)
      _ = nonZeroReadBytes (processedSteps steps) :=
          nonZeroReadBytes_eq_sum _
      _ ≤ nonZeroReadBytes steps := nonZeroReadBytes_processed_le steps

/-! ### Download-handler theorems -/

/-- C4: a successful `HTTPHandler.DownloadFromURL` call leaves the
destination created (truncating whatever was there), filled by the
idle-timeout copy pump from the response body, and truncated to
exactly the bytes copied, returning that count; any error from the
request, a non-200 response, file creation, the copy or the truncation
makes the call return an error. -/
theorem c4_download_postcondition (env : DownloadEnv) (dest0 : DestFile) :
    ((HTTPHandler.DownloadFromURL env dest0).err = none →
      (HTTPHandler.DownloadFromURL env dest0).dest =
        DestFile.created (idleTimeoutCopyLoop false env.body).1
          (some (idleTimeoutCopyLoop false env.body).2.1) ∧
      (HTTPHandler.DownloadFromURL env dest0).written =
        ((idleTimeoutCopyLoop false env.body).2.1 : Int)) ∧
    (env.newRequestErr ≠ none ∨ env.clientDoErr ≠ none ∨
      env.statusCode ≠ 200 ∨ env.createErr ≠ none ∨
      (idleTimeoutCopyLoop false env.body).2.2 ≠ none ∨
      env.truncateErr ≠ none →
      (HTTPHandler.DownloadFromURL env dest0).err ≠ none) := by
  unfold HTTPHandler.DownloadFromURL
  cases h1 : env.newRequestErr with
  | some e => simp [h1]
  | none =>
    cases h2 : env.clientDoErr with
    | some e => simp [h1, h2]
    | none =>
      by_cases h3 : env.statusCode ≠ 200
      · simp [h1, h2, h3]
      · rw [if_neg h3]
        cases h4 : env.createErr with
        | some e => simp [h1, h2, h3, h4]
        | none =>
          cases h5 : (idleTimeoutCopyLoop false env.body).2.2 with
          | some e => simp [h1, h2, h3, h4, h5]
          | none =>
            cases h6 : env.truncateErr with
            | some e => simp [h1, h2, h3, h4, h5, h6]
            | none => simp [h1, h2, h3, h4, h5, h6]

theorem c4_download_postcondition_witness :
    (((HTTPHandler.DownloadFromURL sampleDownloadEnv DestFile.absent).err =
        none →
      (HTTPHandler.DownloadFromURL sampleDownloadEnv DestFile.absent).dest =
        DestFile.created
          (idleTimeoutCopyLoop false sampleDownloadEnv.body).1
          (some (idleTimeoutCopyLoop false sampleDownloadEnv.body).2.1) ∧
      (HTTPHandler.DownloadFromURL sampleDownloadEnv DestFile.absent).written =
        ((idleTimeoutCopyLoop false sampleDownloadEnv.body).2.1 : Int)) ∧
    (sampleDownloadEnv.newRequestErr ≠ none ∨
      sampleDownloadEnv.clientDoErr ≠ none ∨
      sampleDownloadEnv.statusCode ≠ 200 ∨
      sampleDownloadEnv.createErr ≠ none ∨
      (idleTimeoutCopyLoop false sampleDownloadEnv.body).2.2 ≠ none ∨
      sampleDownloadEnv.truncateErr ≠ none →
      (HTTPHandler.DownloadFromURL sampleDownloadEnv DestFile.absent).err ≠
        none)) :=
  c4_download_postcondition sampleDownloadEnv DestFile.absent

/-- C10: whenever `HTTPHandler.DownloadFromURL` returns a non-nil
error — including a copy-pump or truncation error raised after bytes
reached the disk — the returned written count is 0 and the destination
is left as it is: either untouched (failure before `os.Create`) or the
partially written created file, never removed. -/
theorem c10_download_error_result (env : DownloadEnv) (dest0 : DestFile)
    (herr : (HTTPHandler.DownloadFromURL env dest0).err ≠ none) :
    (HTTPHandler.DownloadFromURL env dest0).written = 0 ∧
    ((HTTPHandler.DownloadFromURL env dest0).dest = dest0 ∨
      (HTTPHandler.DownloadFromURL env dest0).dest =
        DestFile.created (idleTimeoutCopyLoop false env.body).1 none) := by
  unfold HTTPHandler.DownloadFromURL at herr ⊢
  cases h1 : env.newRequestErr with
  | some e => simp [h1]
  | none =>
    cases h2 : env.clientDoErr with
    | some e => simp [h1, h2]
    | none =>
      by_cases h3 : env.statusCode ≠ 200
      · simp [h1, h2, h3]
      · rw [if_neg h3]
        cases h4 : env.createErr with
        | some e => simp [h1, h2, h3, h4]
        | none =>
          cases h5 : (idleTimeoutCopyLoop false env.body).2.2 with
          | some e => simp [h1, h2, h3, h4, h5]
          | none =>
            cases h6 : env.truncateErr with
            | some e => simp [h1, h2, h3, h4, h5, h6]
            | none =>
              rw [if_neg h3] at herr
              simp [h1, h2, h3, h4, h5, h6] at herr

theorem c10_download_error_result_witness :
    ((HTTPHandler.DownloadFromURL sampleFailedDownloadEnv
        (DestFile.existing [1, 2, 3])).err ≠ none) ∧
    ((HTTPHandler.DownloadFromURL sampleFailedDownloadEnv
        (DestFile.existing [1, 2, 3])).written = 0 ∧
      ((HTTPHandler.DownloadFromURL sampleFailedDownloadEnv
          (DestFile.existing [1, 2, 3])).dest = DestFile.existing [1, 2, 3] ∨
        (HTTPHandler.DownloadFromURL sampleFailedDownloadEnv
            (DestFile.existing [1, 2, 3])).dest =
          DestFile.created
            (idleTimeoutCopyLoop false sampleFailedDownloadEnv.body).1
            none)) :=
  ⟨by decide,
    c10_download_error_result sampleFailedDownloadEnv
      (DestFile.existing [1, 2, 3]) (by decide)⟩

/-! ### Endpoint theorems -/

theorem doFetch_misaligned {s : ServiceState} {p : FetchParams}
    (h : p.size % DefaultSectorSize ≠ 0) :
    (∃ m, doFetch s p = Except.error m) ∧ fetchState s p = s := by
  unfold fetchState doFetch
  split_ifs <;> exact ⟨⟨_, rfl⟩, rfl⟩

theorem doUpload_misaligned {s : ServiceState} {p : UploadParams}
    (h : p.size % DefaultSectorSize ≠ 0) :
    (∃ m, doUploadFromRequest s p = Except.error m) ∧ uploadState s p = s := by
  unfold uploadState doUploadFromRequest
  split_ifs <;> exact ⟨⟨_, rfl⟩, rfl⟩

theorem doReceive_misaligned {s : ServiceState} {p : ReceiveParams}
    (h : p.size % DefaultSectorSize ≠ 0) :
    (∃ m, doReceiveFromPeer s p = Except.error m) ∧ receiveState s p = s := by
  unfold receiveState doReceiveFromPeer
  split_ifs <;> exact ⟨⟨_, rfl⟩, rfl⟩

/-- C5: every registration request carrying an explicit size
(fetch, upload, receive-from-peer) whose size is not a multiple of 512
fails before any Syncing File is created, and the registry is left
unchanged. -/
theorem c5_sector_alignment (s : ServiceState) (fp : FetchParams)
    (up : UploadParams) (rp : ReceiveParams)
    (hf : fp.size % DefaultSectorSize ≠ 0)
    (hu : up.size % DefaultSectorSize ≠ 0)
    (hr : rp.size % DefaultSectorSize ≠ 0) :
    ((∃ m, doFetch s fp = Except.error m) ∧ fetchState s fp = s) ∧
    ((∃ m, doUploadFromRequest s up = Except.error m) ∧
      uploadState s up = s) ∧
    ((∃ m, doReceiveFromPeer s rp = Except.error m) ∧
      receiveState s rp = s) :=
  ⟨doFetch_misaligned hf, doUpload_misaligned hu, doReceive_misaligned hr⟩

theorem c5_sector_alignment_witness :
    (misalignedFetchParams.size % DefaultSectorSize ≠ 0 ∧
      misalignedUploadParams.size % DefaultSectorSize ≠ 0 ∧
      misalignedReceiveParams.size % DefaultSectorSize ≠ 0) ∧
    (((∃ m, doFetch ServiceState.init misalignedFetchParams =
        Except.error m) ∧
      fetchState ServiceState.init misalignedFetchParams =
        ServiceState.init) ∧
    ((∃ m, doUploadFromRequest ServiceState.init misalignedUploadParams =
        Except.error m) ∧
      uploadState ServiceState.init misalignedUploadParams =
        ServiceState.init) ∧
    ((∃ m, doReceiveFromPeer ServiceState.init misalignedReceiveParams =
        Except.error m) ∧
      receiveState ServiceState.init misalignedReceiveParams =
        ServiceState.init)) :=
  ⟨⟨by decide, by decide, by decide⟩,
    c5_sector_alignment ServiceState.init misalignedFetchParams
      misalignedUploadParams misalignedReceiveParams
      (by decide) (by decide) (by decide)⟩

/-- C6: any GET or HEAD download request naming a registered Syncing
File whose state is not ready is answered with an error and streams no
file bytes to the client. -/
theorem c6_nonready_streaming_refusal (s : ServiceState)
    (filePath : String) (forV2 : Bool) (m : HttpMethod)
    (content : List Nat) (sf : SyncingFile)
    (hreg : alookup filePath s.filePathMap = some sf)
    (hstate : sf.state ≠ FileState.ready) :
    (∃ msg, (DownloadToDst s filePath forV2 m content).1 = some msg) ∧
    (DownloadToDst s filePath forV2 m content).2 = [] := by
  simp [DownloadToDst, hreg, hstate]

theorem c6_nonready_streaming_refusal_witness :
    (alookup "/data/a-u1/backing" (applyOps sampleOps).filePathMap =
        some sampleFile ∧
      sampleFile.state ≠ FileState.ready) ∧
    ((∃ msg, (DownloadToDst (applyOps sampleOps) "/data/a-u1/backing"
        true HttpMethod.get [1, 2]).1 = some msg) ∧
      (DownloadToDst (applyOps sampleOps) "/data/a-u1/backing"
        true HttpMethod.get [1, 2]).2 = []) :=
  ⟨⟨by decide, by decide⟩,
    c6_nonready_streaming_refusal (applyOps sampleOps) "/data/a-u1/backing"
      true HttpMethod.get [1, 2] sampleFile (by decide) (by decide)⟩

theorem fetchStatus_500_of_invalid (s : ServiceState) (p : FetchParams)
    (h : p.srcFilePath = "" ∨ p.dstFilePath = "" ∨ p.uuid = "" ∨
      p.diskUUID = "" ∨ p.size % DefaultSectorSize ≠ 0) :
    fetchStatus s p = 500 := by
  unfold fetchStatus doFetch
  split_ifs with h1 h2 h3 h4 h5
  · rfl
  · rfl
  · rfl
  · rfl
  · rfl
  · rcases h with h | h | h | h | h
    · exact absurd h h1
    · exact absurd h h2
    · exact absurd h h3
    · exact absurd h h4
    · exact absurd h h5

theorem downloadFromURLStatus_500_of_invalid (s : ServiceState)
    (p : DownloadURLParams)
    (h : p.filePath = "" ∨ p.uuid = "" ∨ p.url = "") :
    downloadFromURLStatus s p = 500 := by
  unfold downloadFromURLStatus doDownloadFromURL
  split_ifs with h1 h2 h3
  · rfl
  · rfl
  · rfl
  · rcases h with h | h | h
    · exact absurd h h1
    · exact absurd h h2
    · exact absurd h h3

theorem uploadStatus_500_of_invalid (s : ServiceState) (p : UploadParams)
    (h : p.filePath = "" ∨ p.uuid = "" ∨ p.size % DefaultSectorSize ≠ 0) :
    uploadStatus s p = 500 := by
  unfold uploadStatus doUploadFromRequest
  split_ifs with h1 h2 h3
  · rfl
  · rfl
  · rfl
  · rcases h with h | h | h
    · exact absurd h h1
    · exact absurd h h2
    · exact absurd h h3

theorem cloneStatus_500_of_invalid (s : ServiceState) (p : CloneParams)
    (h : p.backingImage = "" ∨ p.backingImageUUID = "" ∨
      (p.encryption ≠ "encrypt" ∧ p.encryption ≠ "decrypt" ∧
        p.encryption ≠ "ignore") ∨ p.filePath = "" ∨ p.uuid = "") :
    cloneStatus s p = 500 := by
  unfold cloneStatus doCloneFromBackingImage
  split_ifs with h1 h2 h3 h4 h5
  · rfl
  · rfl
  · rfl
  · rfl
  · rfl
  · rcases h with h | h | h | h | h
    · exact absurd h h1
    · exact absurd h h2
    · exact absurd h h3
    · exact absurd h h4
    · exact absurd h h5

/-- C8 (counterexample): a fetch request with a missing
`src-file-path` parameter is answered with HTTP status 500, not the
400 the claim requires. -/
theorem c8_http400_counterexample :
    missingSrcFetchParams.srcFilePath = "" ∧
    fetchStatus ServiceState.init missingSrcFetchParams = 500 ∧
    ¬ fetchStatus ServiceState.init missingSrcFetchParams = 400 := by
  decide

/-- C8 (amended): every control request to the registration endpoints
with a missing or malformed query parameter — a missing fetch or
download parameter, a size that is not sector-aligned, a bad
encryption mode — is answered with HTTP status 500 (the handlers map
every `doX` error to `http.StatusInternalServerError`), not 400. -/
theorem c8_invalid_argument_maps_to_500 (s : ServiceState)
    (fp : FetchParams) (dp : DownloadURLParams) (up : UploadParams)
    (cp : CloneParams)
    (hf : fp.srcFilePath = "" ∨ fp.dstFilePath = "" ∨ fp.uuid = "" ∨
      fp.diskUUID = "" ∨ fp.size % DefaultSectorSize ≠ 0)
    (hd : dp.filePath = "" ∨ dp.uuid = "" ∨ dp.url = "")
    (hu : up.filePath = "" ∨ up.uuid = "" ∨
      up.size % DefaultSectorSize ≠ 0)
    (hc : cp.backingImage = "" ∨ cp.backingImageUUID = "" ∨
      (cp.encryption ≠ "encrypt" ∧ cp.encryption ≠ "decrypt" ∧
        cp.encryption ≠ "ignore") ∨ cp.filePath = "" ∨ cp.uuid = "") :
    fetchStatus s fp = 500 ∧ downloadFromURLStatus s dp = 500 ∧
    uploadStatus s up = 500 ∧ cloneStatus s cp = 500 :=
  ⟨fetchStatus_500_of_invalid s fp hf,
    downloadFromURLStatus_500_of_invalid s dp hd,
    uploadStatus_500_of_invalid s up hu,
    cloneStatus_500_of_invalid s cp hc⟩

theorem c8_invalid_argument_maps_to_500_witness :
    ((missingSrcFetchParams.srcFilePath = "" ∨
        missingSrcFetchParams.dstFilePath = "" ∨
        missingSrcFetchParams.uuid = "" ∨
        missingSrcFetchParams.diskUUID = "" ∨
        missingSrcFetchParams.size % DefaultSectorSize ≠ 0) ∧
      (missingURLDownloadParams.filePath = "" ∨
        missingURLDownloadParams.uuid = "" ∨
        missingURLDownloadParams.url = "") ∧
      (misalignedUploadParams.filePath = "" ∨
        misalignedUploadParams.uuid = "" ∨
        misalignedUploadParams.size % DefaultSectorSize ≠ 0) ∧
      (badEncryptionCloneParams.backingImage = "" ∨
        badEncryptionCloneParams.backingImageUUID = "" ∨
        (badEncryptionCloneParams.encryption ≠ "encrypt" ∧
          badEncryptionCloneParams.encryption ≠ "decrypt" ∧
          badEncryptionCloneParams.encryption ≠ "ignore") ∨
        badEncryptionCloneParams.filePath = "" ∨
        badEncryptionCloneParams.uuid = "")) ∧
    (fetchStatus ServiceState.init missingSrcFetchParams = 500 ∧
      downloadFromURLStatus ServiceState.init missingURLDownloadParams = 500 ∧
      uploadStatus ServiceState.init misalignedUploadParams = 500 ∧
      cloneStatus ServiceState.init badEncryptionCloneParams = 500) :=
  ⟨⟨by decide, by decide, by decide, by decide⟩,
    c8_invalid_argument_maps_to_500 ServiceState.init missingSrcFetchParams
      missingURLDownloadParams misalignedUploadParams badEncryptionCloneParams
      (by decide) (by decide) (by decide) (by decide)⟩

/-- C9 (counterexample): a DELETE for an id that names no registered
Syncing File is answered with HTTP status 200, not the 404 the claim
requires (`cleanup` is a silent no-op on an unknown path). -/
theorem c9_notfound_counterexample :
    alookup "/data/ghost" ServiceState.init.filePathMap = none ∧
    (deleteHandler ServiceState.init "/data/ghost").1 = 200 ∧
    ¬ (deleteHandler ServiceState.init "/data/ghost").1 = 404 := by
  decide

/-- C9 (amended): on an id naming no registered Syncing File, `Get`
answers 404; `Delete` and `Forget` answer 200 and leave the registry
unchanged; `SendToPeer` reports its not-found error as status 500. -/
theorem c9_unknown_id_statuses (s : ServiceState)
    (filePath toAddress : String) (send : Except String Unit)
    (hunknown : alookup filePath s.filePathMap = none)
    (hfp : filePath ≠ "") (hta : toAddress ≠ "") :
    getStatus s filePath = 404 ∧
    (deleteHandler s filePath).1 = 200 ∧
    (forgetHandler s filePath).1 = 200 ∧
    (deleteHandler s filePath).2 = s ∧
    sendToPeerStatus s filePath toAddress send = 500 := by
  refine ⟨?_, rfl, rfl, ?_, ?_⟩
  · unfold getStatus
    rw [hunknown]
  · show cleanup s filePath true = s
    unfold cleanup
    rw [hunknown, aerase_of_alookup_none hunknown]
  · unfold sendToPeerStatus doSendToPeer
    rw [if_neg hfp, if_neg hta, hunknown]

theorem c9_unknown_id_statuses_witness :
    (alookup "/data/ghost" ServiceState.init.filePathMap = none ∧
      "/data/ghost" ≠ "" ∧ "10.0.0.5:8002" ≠ "") ∧
    (getStatus ServiceState.init "/data/ghost" = 404 ∧
      (deleteHandler ServiceState.init "/data/ghost").1 = 200 ∧
      (forgetHandler ServiceState.init "/data/ghost").1 = 200 ∧
      (deleteHandler ServiceState.init "/data/ghost").2 = ServiceState.init ∧
      sendToPeerStatus ServiceState.init "/data/ghost" "10.0.0.5:8002"
        (Except.ok ()) = 500) :=
  ⟨⟨by decide, by decide, by decide⟩,
    c9_unknown_id_statuses ServiceState.init "/data/ghost" "10.0.0.5:8002"
      (Except.ok ()) (by decide) (by decide) (by decide)⟩

end BackingImage
